import Mathlib

/-!
Shallow embedding of the TrackTrade / SportToken valuation-and-settlement
engine, translated from `src/main.py` (the in-memory variant the spec was
written from), `src/utils.py` and the pydantic field constraints in
`src/pydantic_models.py`.

Modelling conventions:
* Python `Decimal` and `float` monetary values are embedded as exact
  rationals (`ℚ`); `int` counters as `ℕ`/`ℤ`.
* Timestamps are integers; `datetime.now()` becomes an explicit `now`
  parameter; `campaign_end_date` is stored as an integer instant.
* `raise HTTPException` becomes `Except.error` with a typed error; the
  handler bodies return `Except`.
* Python `int(a / b)` on positive decimals truncates toward zero, which on
  the validated domain (pydantic enforces `amount_xlm >= 1`, and every
  created campaign has a positive adjusted price) coincides with the floor;
  we embed it as `Int.toNat ∘ Int.floor`.
-/

namespace TrackTrade

/-- `AthleteLevel` enum from `src/pydantic_models.py`. -/
inductive AthleteLevel
  | amateur
  | semiProfessional
  | professional
  | elite
deriving DecidableEq, Repr

/-- `TokenStatus` enum from `src/pydantic_models.py` / `src/main.py`. -/
inductive TokenStatus
  | draft
  | active
  | paused
  | completed
deriving DecidableEq, Repr

/-- `AthleteData` (the fields the engine reads: `age` and `level`). -/
structure AthleteData where
  age : ℤ
  level : AthleteLevel
deriving DecidableEq, Repr

/-- `PerformanceMetrics` from `src/pydantic_models.py`. -/
structure PerformanceMetrics where
  wins : ℕ
  losses : ℕ
  recent_performance_score : ℚ
  potential_score : ℚ
  media_exposure_score : ℚ
deriving DecidableEq, Repr

/-- `TokenomicsConfig` from `src/pydantic_models.py`. -/
structure TokenomicsConfig where
  total_supply : ℕ
  price_per_token : ℚ
  minimum_investment : ℚ
  revenue_share_percentage : ℚ
deriving DecidableEq, Repr

/-- `CreateAthleteTokenRequest` from `src/pydantic_models.py`. -/
structure CreateAthleteTokenRequest where
  athlete_data : AthleteData
  performance_metrics : PerformanceMetrics
  tokenomics : TokenomicsConfig
  funding_goal : ℚ
  campaign_duration_days : ℕ
deriving DecidableEq, Repr

/-- The pydantic `Field` range constraints relevant to the engine
(`src/pydantic_models.py`): ages in `[14, 50]`, scores in `[0, 100]`,
supply in `[1000, 10^7]`, base price in `[0.01, 1000]`,
`minimum_investment >= 1`, `funding_goal >= 1000`,
duration in `[30, 365]` days. FastAPI rejects a request violating these
before the handler runs. -/
def ValidRequest (req : CreateAthleteTokenRequest) : Prop :=
  14 ≤ req.athlete_data.age ∧ req.athlete_data.age ≤ 50 ∧
  0 ≤ req.performance_metrics.recent_performance_score ∧
  req.performance_metrics.recent_performance_score ≤ 100 ∧
  0 ≤ req.performance_metrics.potential_score ∧
  req.performance_metrics.potential_score ≤ 100 ∧
  0 ≤ req.performance_metrics.media_exposure_score ∧
  req.performance_metrics.media_exposure_score ≤ 100 ∧
  1000 ≤ req.tokenomics.total_supply ∧ req.tokenomics.total_supply ≤ 10000000 ∧
  1/100 ≤ req.tokenomics.price_per_token ∧ req.tokenomics.price_per_token ≤ 1000 ∧
  1 ≤ req.tokenomics.minimum_investment ∧
  1000 ≤ req.funding_goal ∧
  30 ≤ req.campaign_duration_days ∧ req.campaign_duration_days ≤ 365

instance (req : CreateAthleteTokenRequest) : Decidable (ValidRequest req) := by
  unfold ValidRequest; infer_instance

/-- `level_multipliers` lookup in `calculate_athlete_valuation`
(`src/utils.py` lines 37-42 / `src/main.py` lines 122-127). -/
def levelMultiplier : AthleteLevel → ℚ
  | .amateur => 1/2
  | .semiProfessional => 7/10
  | .professional => 1
  | .elite => 13/10

/-- `calculate_athlete_valuation` (`src/utils.py` lines 27-46, identical copy
in `src/main.py` lines 112-131): weighted linear combination of performance
scores plus age and level factors, clamped above at 100. -/
def calculate_athlete_valuation (athlete : AthleteData)
    (performance : PerformanceMetrics) : ℚ :=
  let base_score := performance.recent_performance_score * (3/10)
  let potential_score := performance.potential_score * (1/4)
  let media_score := performance.media_exposure_score * (3/20)
  let age_factor := max (1/2) ((35 - (athlete.age : ℚ)) / 20) * (3/20)
  let level_factor := levelMultiplier athlete.level * (3/20)
  let total_score := base_score + potential_score + media_score + age_factor + level_factor
  min 100 total_score

/-- One campaign record: the fields of the `token_data` dict built by
`create_athlete_token` (`src/main.py` lines 193-212) that the engine reads
and writes. -/
structure Campaign where
  tokenomics : TokenomicsConfig
  athlete_valuation : ℚ
  adjusted_price_per_token : ℚ
  funding_goal : ℚ
  campaign_end_date : ℤ
  status : TokenStatus
  total_raised : ℚ
  investors_count : ℕ
  tokens_sold : ℕ
deriving DecidableEq, Repr

/-- One `investment_data` record (`src/main.py` lines 363-369). -/
structure Investment where
  investor_address : String
  amount_xlm : ℚ
  tokens_purchased : ℕ
deriving DecidableEq, Repr

/-- `create_athlete_token` (`src/main.py` lines 174-227): computes the
valuation, derives `adjusted_price = price_per_token * (valuation / 50)`,
and stores a fresh `draft` campaign with zero counters and an empty
investment list. -/
def create_athlete_token (now : ℤ) (req : CreateAthleteTokenRequest) :
    Campaign × List Investment :=
  let athlete_valuation :=
    calculate_athlete_valuation req.athlete_data req.performance_metrics
  let adjusted_price := req.tokenomics.price_per_token * (athlete_valuation / 50)
  ({ tokenomics := req.tokenomics
     athlete_valuation := athlete_valuation
     adjusted_price_per_token := adjusted_price
     funding_goal := req.funding_goal
     campaign_end_date := now + (req.campaign_duration_days : ℤ) * 86400
     status := TokenStatus.draft
     total_raised := 0
     investors_count := 0
     tokens_sold := 0 }, [])

/-- Typed errors for the `HTTPException`s raised by the handlers in
`src/main.py` (kinds per spec §7). -/
inductive ApiError
  | notFound
  | invalidState
  | expired
  | belowMinimum
  | amountTooSmall
  | insufficientSupply
  | noInvestors
deriving DecidableEq, Repr

/-- `activate_token` (`src/main.py` lines 230-263): 404 when missing is
handled at the store level; on a campaign, fails unless the status is
`draft`, otherwise transitions it to `active`. -/
def activate_token (c : Campaign) : Except ApiError Campaign :=
  if c.status ≠ TokenStatus.draft then Except.error ApiError.invalidState
  else Except.ok { c with status := TokenStatus.active }

/-- `tokens_to_purchase = int(investment.amount_xlm / price_per_token)`
(`src/main.py` line 352); truncation toward zero equals the floor on the
positive quotients the validated domain produces. -/
def tokensToPurchase (c : Campaign) (amount : ℚ) : ℕ :=
  (Int.floor (amount / c.adjusted_price_per_token)).toNat

/-- The counter updates and completion check of `invest_in_athlete`
(`src/main.py` lines 371-381): add the amount and tokens, bump the
investor count, then mark the campaign `completed` when the updated
`total_raised` reaches the funding goal. -/
def applyInvestment (c : Campaign) (amount : ℚ) (ttp : ℕ) : Campaign :=
  let c1 := { c with
    total_raised := c.total_raised + amount
    tokens_sold := c.tokens_sold + ttp
    investors_count := c.investors_count + 1 }
  if c.funding_goal ≤ c1.total_raised then
    { c1 with status := TokenStatus.completed }
  else c1

/-- `invest_in_athlete` (`src/main.py` lines 326-390) acting on one
campaign and its investment list: the guard chain in source order, then the
atomic update. Returns the updated campaign, the updated list and the new
`Investment` record. -/
def invest_in_athlete (now : ℤ) (c : Campaign) (invs : List Investment)
    (addr : String) (amount : ℚ) :
    Except ApiError (Campaign × List Investment × Investment) :=
  if c.status ≠ TokenStatus.active then Except.error ApiError.invalidState
  else if c.campaign_end_date < now then Except.error ApiError.expired
  else if amount < c.tokenomics.minimum_investment then Except.error ApiError.belowMinimum
  else if tokensToPurchase c amount = 0 then Except.error ApiError.amountTooSmall
  else if ((c.tokenomics.total_supply : ℤ) - (c.tokens_sold : ℤ)) <
      (tokensToPurchase c amount : ℤ) then Except.error ApiError.insufficientSupply
  else
    let inv : Investment :=
      { investor_address := addr
        amount_xlm := amount
        tokens_purchased := tokensToPurchase c amount }
    Except.ok (applyInvestment c amount (tokensToPurchase c amount),
      invs ++ [inv], inv)

/-- One row of the `distributions` list built by `distribute_revenue`
(`src/main.py` lines 416-421). -/
structure DistributionEntry where
  investor_address : String
  tokens_owned : ℕ
  revenue_share : ℚ
deriving DecidableEq, Repr

/-- The response of `distribute_revenue` (`src/main.py` lines 435-443). -/
structure DistributionResult where
  total_revenue : ℚ
  total_distributed : ℚ
  revenue_per_token : ℚ
  distributions : List DistributionEntry
deriving DecidableEq, Repr

/-- `distribute_revenue` (`src/main.py` lines 393-443) on one campaign:
rejects an empty investment list, computes
`revenue_per_token = revenue_amount / tokens_sold`, assigns each investor
`revenue_per_token * tokens_purchased` in creation order, and accumulates
`total_distributed`. It performs no write to the stored campaign data. -/
def distribute_revenue (c : Campaign) (invs : List Investment)
    (revenue_amount : ℚ) : Except ApiError DistributionResult :=
  if invs = [] then Except.error ApiError.noInvestors
  else
    let revenue_per_token := revenue_amount / (c.tokens_sold : ℚ)
    let distributions := invs.map (fun inv =>
      { investor_address := inv.investor_address
        tokens_owned := inv.tokens_purchased
        revenue_share := revenue_per_token * (inv.tokens_purchased : ℚ)
        : DistributionEntry })
    let total_distributed := (distributions.map DistributionEntry.revenue_share).sum
    Except.ok
      { total_revenue := revenue_amount
        total_distributed := total_distributed
        revenue_per_token := revenue_per_token
        distributions := distributions }

/-- The module-level stores `tokens_db` and `investments_db`
(`src/main.py` lines 106-108), keyed by token id. -/
structure SystemState where
  tokens_db : String → Option Campaign
  investments_db : String → List Investment

/-- The full `/investments/invest` handler (`src/main.py` lines 326-390) as
a state transformer: an `HTTPException` leaves the stores untouched, a
success writes the updated campaign and investment list back. The store
lookup supplies the leading `404` check. -/
def invest_step (now : ℤ) (s : SystemState) (tokenId : String)
    (addr : String) (amount : ℚ) : SystemState × Except ApiError Investment :=
  match s.tokens_db tokenId with
  | none => (s, Except.error ApiError.notFound)
  | some c =>
    match invest_in_athlete now c (s.investments_db tokenId) addr amount with
    | Except.error e => (s, Except.error e)
    | Except.ok (c', invs', inv) =>
      ({ tokens_db := Function.update s.tokens_db tokenId (some c')
         investments_db := Function.update s.investments_db tokenId invs' },
       Except.ok inv)

/-- The full `/revenue/distribute` handler (`src/main.py` lines 393-443) as
a state transformer. The source builds a `distribution_record` dict and
returns it without ever assigning into `tokens_db` or `investments_db`, so
the resulting state is the input state on every path. -/
def distribute_step (s : SystemState) (tokenId : String) (revenue_amount : ℚ) :
    SystemState × Except ApiError DistributionResult :=
  match s.tokens_db tokenId with
  | none => (s, Except.error ApiError.notFound)
  | some c =>
    match distribute_revenue c (s.investments_db tokenId) revenue_amount with
    | Except.error e => (s, Except.error e)
    | Except.ok res => (s, Except.ok res)

/-- One engine step on a single campaign and its investment list: a
successful activation, a successful investment (with the pydantic bound
`amount_xlm >= 1` from `InvestmentRequest`), or a successful revenue
distribution (which returns no new state). -/
inductive Step : Campaign × List Investment → Campaign × List Investment → Prop
  | activate (c c' : Campaign) (invs : List Investment)
      (h : activate_token c = Except.ok c') :
      Step (c, invs) (c', invs)
  | invest (now : ℤ) (c c' : Campaign) (invs invs' : List Investment)
      (addr : String) (amount : ℚ) (inv : Investment)
      (hamt : 1 ≤ amount)
      (h : invest_in_athlete now c invs addr amount = Except.ok (c', invs', inv)) :
      Step (c, invs) (c', invs')
  | distribute (c : Campaign) (invs : List Investment) (revenue_amount : ℚ)
      (res : DistributionResult)
      (h : distribute_revenue c invs revenue_amount = Except.ok res) :
      Step (c, invs) (c, invs)

/-- The states of one campaign reachable from its creation by a validated
request, through any sequence of engine steps. -/
inductive Reachable : Campaign × List Investment → Prop
  | create (now : ℤ) (req : CreateAthleteTokenRequest) (h : ValidRequest req) :
      Reachable (create_athlete_token now req)
  | step (s s' : Campaign × List Investment)
      (h : Reachable s) (hs : Step s s') : Reachable s'

lemma applyInvestment_total_raised (c : Campaign) (amount : ℚ) (ttp : ℕ) :
    (applyInvestment c amount ttp).total_raised = c.total_raised + amount := by
  simp only [applyInvestment]; split <;> rfl

lemma applyInvestment_tokens_sold (c : Campaign) (amount : ℚ) (ttp : ℕ) :
    (applyInvestment c amount ttp).tokens_sold = c.tokens_sold + ttp := by
  simp only [applyInvestment]; split <;> rfl

lemma applyInvestment_investors_count (c : Campaign) (amount : ℚ) (ttp : ℕ) :
    (applyInvestment c amount ttp).investors_count = c.investors_count + 1 := by
  simp only [applyInvestment]; split <;> rfl

lemma applyInvestment_tokenomics (c : Campaign) (amount : ℚ) (ttp : ℕ) :
    (applyInvestment c amount ttp).tokenomics = c.tokenomics := by
  simp only [applyInvestment]; split <;> rfl

lemma applyInvestment_funding_goal (c : Campaign) (amount : ℚ) (ttp : ℕ) :
    (applyInvestment c amount ttp).funding_goal = c.funding_goal := by
  simp only [applyInvestment]; split <;> rfl

lemma applyInvestment_status (c : Campaign) (amount : ℚ) (ttp : ℕ) :
    (applyInvestment c amount ttp).status =
      if c.funding_goal ≤ c.total_raised + amount then TokenStatus.completed
      else c.status := by
  by_cases h : c.funding_goal ≤ c.total_raised + amount
  · simp only [applyInvestment, if_pos h]
  · simp only [applyInvestment, if_neg h]

/-- Inversion of a successful `invest_in_athlete` call: every guard in the
source passed, and the output is the atomic update. -/
lemma invest_ok_elim {now : ℤ} {c : Campaign} {invs : List Investment}
    {addr : String} {amount : ℚ}
    {out : Campaign × List Investment × Investment}
    (h : invest_in_athlete now c invs addr amount = Except.ok out) :
    c.status = TokenStatus.active ∧
    now ≤ c.campaign_end_date ∧
    c.tokenomics.minimum_investment ≤ amount ∧
    tokensToPurchase c amount ≠ 0 ∧
    (tokensToPurchase c amount : ℤ) ≤
      (c.tokenomics.total_supply : ℤ) - (c.tokens_sold : ℤ) ∧
    out = (applyInvestment c amount (tokensToPurchase c amount),
      invs ++ [⟨addr, amount, tokensToPurchase c amount⟩],
      ⟨addr, amount, tokensToPurchase c amount⟩) := by
  unfold invest_in_athlete at h
  split_ifs at h with h1 h2 h3 h4 h5
  simp only [Except.ok.injEq] at h
  refine ⟨not_not.mp h1, not_lt.mp h2, not_lt.mp h3, h4, not_lt.mp h5, h.symm⟩

/-- Inversion of a successful `activate_token` call. -/
lemma activate_ok_elim {c c' : Campaign}
    (h : activate_token c = Except.ok c') :
    c.status = TokenStatus.draft ∧ c' = { c with status := TokenStatus.active } := by
  unfold activate_token at h
  split_ifs at h with h1
  simp only [Except.ok.injEq] at h
  exact ⟨not_not.mp h1, h.symm⟩

/-- The inductive invariant of one campaign's reachable states: sold tokens
never exceed the supply, the counters are the exact sums over the
investment records, and every recorded investment bought at least one
token. -/
def CampaignInv (s : Campaign × List Investment) : Prop :=
  s.1.tokens_sold ≤ s.1.tokenomics.total_supply ∧
  s.1.total_raised = (s.2.map Investment.amount_xlm).sum ∧
  s.1.tokens_sold = (s.2.map Investment.tokens_purchased).sum ∧
  ∀ inv ∈ s.2, 1 ≤ inv.tokens_purchased

lemma reachable_inv {s : Campaign × List Investment} (h : Reachable s) :
    CampaignInv s := by
  induction h with
  | create now req hreq =>
    simp [create_athlete_token, CampaignInv]
  | step s s' h hs ih =>
    cases hs with
    | activate c c' invs hact =>
      obtain ⟨hdraft, hc'⟩ := activate_ok_elim hact
      subst hc'
      exact ih
    | invest now c c' invs invs' addr amount inv hamt hinv =>
      obtain ⟨hst, hend, hmin, http, hsup, hout⟩ := invest_ok_elim hinv
      simp only [Prod.mk.injEq] at hout
      obtain ⟨hc', hinvs', hrec⟩ := hout
      subst hc' hinvs'
      obtain ⟨ih1, ih2, ih3, ih4⟩ := ih
      dsimp only at ih1 ih2 ih3 ih4
      refine ⟨?_, ?_, ?_, ?_⟩
      · rw [applyInvestment_tokens_sold, applyInvestment_tokenomics]
        omega
      · rw [applyInvestment_total_raised, ih2]
        simp
      · rw [applyInvestment_tokens_sold, ih3]
        simp
      · intro i hi
        rcases List.mem_append.mp hi with hi | hi
        · exact ih4 i hi
        · simp only [List.mem_singleton] at hi
          subst hi
          show 1 ≤ tokensToPurchase c amount
          omega
    | distribute c invs revenue_amount res hdist =>
      exact ih

/-- The age factor exactly as the spec words it:
`age_factor = max(0.5, (35 - age) / 20)`. -/
def specAgeFactor (age : ℤ) : ℚ :=
  max (1/2) ((35 - (age : ℚ)) / 20)

/-- The level lookup exactly as the spec words it: amateur→0.5,
semi-professional→0.7, professional→1.0, elite→1.3. -/
def specLevelFactor : AthleteLevel → ℚ
  | .amateur => 1/2
  | .semiProfessional => 7/10
  | .professional => 1
  | .elite => 13/10

/-- The spec's valuation formula, written with the weights outside:
`0.30*rps + 0.25*ps + 0.15*ms + 0.15*age_factor + 0.15*level_factor`,
clamped to a maximum of 100. -/
def specValuationFormula (athlete : AthleteData)
    (performance : PerformanceMetrics) : ℚ :=
  min 100 ((3/10) * performance.recent_performance_score
    + (1/4) * performance.potential_score
    + (3/20) * performance.media_exposure_score
    + (3/20) * specAgeFactor athlete.age
    + (3/20) * specLevelFactor athlete.level)

lemma levelMultiplier_eq_specLevelFactor (l : AthleteLevel) :
    levelMultiplier l = specLevelFactor l := by
  cases l <;> rfl

/-- C5: for every athlete and performance input, the valuation computed by
`calculate_athlete_valuation` equals
`0.30*recent + 0.25*potential + 0.15*media + 0.15*age_factor +
0.15*level_factor` with `age_factor = max(0.5, (35-age)/20)` and the
level lookup amateur→0.5, semi-professional→0.7, professional→1.0,
elite→1.3, clamped to a maximum of 100. -/
theorem C5_valuation_formula (athlete : AthleteData)
    (performance : PerformanceMetrics) :
    calculate_athlete_valuation athlete performance =
      specValuationFormula athlete performance := by
  simp only [calculate_athlete_valuation, specValuationFormula, specAgeFactor,
    levelMultiplier_eq_specLevelFactor]
  congr 1
  ring

lemma half_le_levelMultiplier (l : AthleteLevel) :
    (1/2 : ℚ) ≤ levelMultiplier l := by
  cases l <;> norm_num [levelMultiplier]

/-- C6: for every valid input (age in `[14, 50]`, each score in
`[0, 100]`, as pydantic enforces), the computed valuation lies in
`[0, 100]`. -/
theorem C6_valuation_bounded (athlete : AthleteData)
    (performance : PerformanceMetrics)
    (hage1 : 14 ≤ athlete.age) (hage2 : athlete.age ≤ 50)
    (h1 : 0 ≤ performance.recent_performance_score)
    (h2 : performance.recent_performance_score ≤ 100)
    (h3 : 0 ≤ performance.potential_score)
    (h4 : performance.potential_score ≤ 100)
    (h5 : 0 ≤ performance.media_exposure_score)
    (h6 : performance.media_exposure_score ≤ 100) :
    0 ≤ calculate_athlete_valuation athlete performance ∧
    calculate_athlete_valuation athlete performance ≤ 100 := by
  simp only [calculate_athlete_valuation]
  constructor
  · apply le_min (by norm_num)
    have h7 : (1/2 : ℚ) ≤ max (1/2) ((35 - (athlete.age : ℚ)) / 20) :=
      le_max_left _ _
    have h8 : (1/2 : ℚ) ≤ levelMultiplier athlete.level :=
      half_le_levelMultiplier _
    nlinarith
  · exact min_le_left _ _

/-- C6 witness: a concrete valid input. -/
theorem C6_valuation_bounded_witness :
    0 ≤ calculate_athlete_valuation
      { age := 25, level := AthleteLevel.professional }
      { wins := 10, losses := 2, recent_performance_score := 80,
        potential_score := 70, media_exposure_score := 60 } ∧
    calculate_athlete_valuation
      { age := 25, level := AthleteLevel.professional }
      { wins := 10, losses := 2, recent_performance_score := 80,
        potential_score := 70, media_exposure_score := 60 } ≤ 100 :=
  C6_valuation_bounded _ _ (by norm_num) (by norm_num) (by norm_num)
    (by norm_num) (by norm_num) (by norm_num) (by norm_num) (by norm_num)

/-- C7: the adjusted token price computed at campaign creation equals
`base_price_per_token * (score / 50)`; a score of exactly 50 keeps the base
price, a lower score discounts it strictly, a higher score raises it
strictly, and for scores up to 100 it is at most double the base price. -/
theorem C7_adjusted_price (now : ℤ) (req : CreateAthleteTokenRequest) :
    (create_athlete_token now req).1.adjusted_price_per_token =
      req.tokenomics.price_per_token *
        (calculate_athlete_valuation req.athlete_data req.performance_metrics / 50) ∧
    (calculate_athlete_valuation req.athlete_data req.performance_metrics = 50 →
      (create_athlete_token now req).1.adjusted_price_per_token =
        req.tokenomics.price_per_token) ∧
    (0 < req.tokenomics.price_per_token →
      calculate_athlete_valuation req.athlete_data req.performance_metrics < 50 →
      (create_athlete_token now req).1.adjusted_price_per_token <
        req.tokenomics.price_per_token) ∧
    (0 < req.tokenomics.price_per_token →
      50 < calculate_athlete_valuation req.athlete_data req.performance_metrics →
      req.tokenomics.price_per_token <
        (create_athlete_token now req).1.adjusted_price_per_token) ∧
    (0 ≤ req.tokenomics.price_per_token →
      calculate_athlete_valuation req.athlete_data req.performance_metrics ≤ 100 →
      (create_athlete_token now req).1.adjusted_price_per_token ≤
        2 * req.tokenomics.price_per_token) := by
  have hadj : (create_athlete_token now req).1.adjusted_price_per_token =
      req.tokenomics.price_per_token *
        (calculate_athlete_valuation req.athlete_data req.performance_metrics / 50) := by
    simp only [create_athlete_token]
  rw [hadj]
  refine ⟨rfl, ?_, ?_, ?_, ?_⟩
  · intro hv; rw [hv]; norm_num
  · intro hp hv; nlinarith
  · intro hp hv; nlinarith
  · intro hp hv; nlinarith

/-- A request whose athlete valuation is exactly 50
(`30 + 19.775 + 0 + 0.075 + 0.15 = 50`), so the base price is kept. -/
def reqW : CreateAthleteTokenRequest :=
  { athlete_data := { age := 25, level := AthleteLevel.professional }
    performance_metrics :=
      { wins := 10
        losses := 2
        recent_performance_score := 100
        potential_score := 791/10
        media_exposure_score := 0 }
    tokenomics :=
      { total_supply := 10000
        price_per_token := 1
        minimum_investment := 10
        revenue_share_percentage := 20 }
    funding_goal := 5000
    campaign_duration_days := 30 }

/-- A request whose athlete valuation is `0.15`, far below 50. -/
def reqLow : CreateAthleteTokenRequest :=
  { athlete_data := { age := 35, level := AthleteLevel.amateur }
    performance_metrics :=
      { wins := 0
        losses := 0
        recent_performance_score := 0
        potential_score := 0
        media_exposure_score := 0 }
    tokenomics :=
      { total_supply := 1000
        price_per_token := 2
        minimum_investment := 10
        revenue_share_percentage := 20 }
    funding_goal := 1000
    campaign_duration_days := 30 }

/-- A request whose athlete valuation is `70.3525`, above 50. -/
def reqHigh : CreateAthleteTokenRequest :=
  { athlete_data := { age := 14, level := AthleteLevel.elite }
    performance_metrics :=
      { wins := 30
        losses := 0
        recent_performance_score := 100
        potential_score := 100
        media_exposure_score := 100 }
    tokenomics :=
      { total_supply := 1000
        price_per_token := 4
        minimum_investment := 10
        revenue_share_percentage := 20 }
    funding_goal := 1000
    campaign_duration_days := 30 }

lemma valuation_reqW :
    calculate_athlete_valuation reqW.athlete_data reqW.performance_metrics = 50 := by
  norm_num [calculate_athlete_valuation, levelMultiplier, reqW, max_def, min_def]

lemma valuation_reqLow :
    calculate_athlete_valuation reqLow.athlete_data reqLow.performance_metrics = 3/20 := by
  norm_num [calculate_athlete_valuation, levelMultiplier, reqLow, max_def, min_def]

lemma valuation_reqHigh :
    calculate_athlete_valuation reqHigh.athlete_data reqHigh.performance_metrics =
      28141/400 := by
  norm_num [calculate_athlete_valuation, levelMultiplier, reqHigh, max_def, min_def]

/-- C7 witness: concrete requests with valuations equal to, below and
above 50. -/
theorem C7_adjusted_price_witness :
    (create_athlete_token 0 reqW).1.adjusted_price_per_token =
      reqW.tokenomics.price_per_token ∧
    (create_athlete_token 0 reqLow).1.adjusted_price_per_token <
      reqLow.tokenomics.price_per_token ∧
    reqHigh.tokenomics.price_per_token <
      (create_athlete_token 0 reqHigh).1.adjusted_price_per_token ∧
    (create_athlete_token 0 reqHigh).1.adjusted_price_per_token ≤
      2 * reqHigh.tokenomics.price_per_token :=
  ⟨(C7_adjusted_price 0 reqW).2.1 valuation_reqW,
   (C7_adjusted_price 0 reqLow).2.2.1 (by norm_num [reqLow])
     (by rw [valuation_reqLow]; norm_num),
   (C7_adjusted_price 0 reqHigh).2.2.2.1 (by norm_num [reqHigh])
     (by rw [valuation_reqHigh]; norm_num),
   (C7_adjusted_price 0 reqHigh).2.2.2.2 (by norm_num [reqHigh])
     (by rw [valuation_reqHigh]; norm_num)⟩

/-- C1: in every state of a campaign reachable by any sequence of
create/activate/invest operations, `tokens_sold <= total_supply` and
`total_raised` equals the exact sum of `amount` over the campaign's
Investment records. -/
theorem C1_counters_invariant (s : Campaign × List Investment)
    (h : Reachable s) :
    s.1.tokens_sold ≤ s.1.tokenomics.total_supply ∧
    s.1.total_raised = (s.2.map Investment.amount_xlm).sum :=
  ⟨(reachable_inv h).1, (reachable_inv h).2.1⟩

/-- C1 witness: the invariant at the concrete freshly created campaign. -/
theorem C1_counters_invariant_witness :
    (create_athlete_token 0 reqW).1.tokens_sold ≤
      (create_athlete_token 0 reqW).1.tokenomics.total_supply ∧
    (create_athlete_token 0 reqW).1.total_raised =
      ((create_athlete_token 0 reqW).2.map Investment.amount_xlm).sum :=
  C1_counters_invariant _
    (Reachable.create 0 reqW (by norm_num [ValidRequest, reqW]))

/-- C4: a successful `distribute_revenue` call computes
`revenue_per_token = revenue_amount / tokens_sold`, assigns each investor
(in creation order) the share `revenue_per_token * tokens_purchased`, and
its `total_distributed` is the sum of those shares. -/
theorem C4_distribute_prorata (c : Campaign) (invs : List Investment)
    (r : ℚ) (res : DistributionResult)
    (h : distribute_revenue c invs r = Except.ok res) :
    res.revenue_per_token = r / (c.tokens_sold : ℚ) ∧
    res.distributions = invs.map (fun inv =>
      { investor_address := inv.investor_address
        tokens_owned := inv.tokens_purchased
        revenue_share := r / (c.tokens_sold : ℚ) * (inv.tokens_purchased : ℚ) }) ∧
    res.total_distributed =
      (invs.map (fun inv =>
        r / (c.tokens_sold : ℚ) * (inv.tokens_purchased : ℚ))).sum := by
  unfold distribute_revenue at h
  split_ifs at h with h1
  simp only [Except.ok.injEq] at h
  subst h
  refine ⟨rfl, rfl, ?_⟩
  simp [List.map_map, Function.comp_def]

/-- The campaign of the distribution example: 100 tokens sold. -/
def campDistW : Campaign :=
  { tokenomics :=
      { total_supply := 10000
        price_per_token := 10
        minimum_investment := 10
        revenue_share_percentage := 20 }
    athlete_valuation := 50
    adjusted_price_per_token := 10
    funding_goal := 1000
    campaign_end_date := 2592000
    status := TokenStatus.completed
    total_raised := 1000
    investors_count := 2
    tokens_sold := 100 }

/-- The two investors of the distribution example: A holds 60 tokens and
B holds 40. -/
def invsDistW : List Investment :=
  [ { investor_address := "A", amount_xlm := 600, tokens_purchased := 60 },
    { investor_address := "B", amount_xlm := 400, tokens_purchased := 40 } ]

/-- The expected outcome of distributing 1000 over `invsDistW`. -/
def resDistW : DistributionResult :=
  { total_revenue := 1000
    total_distributed := 1000
    revenue_per_token := 10
    distributions :=
      [ { investor_address := "A", tokens_owned := 60, revenue_share := 600 },
        { investor_address := "B", tokens_owned := 40, revenue_share := 400 } ] }

/-- C4 witness: for holders of 60 and 40 tokens and a revenue of 1000 the
shares are exactly 600 and 400 and the total distributed is 1000. -/
theorem C4_distribute_prorata_witness :
    distribute_revenue campDistW invsDistW 1000 = Except.ok resDistW ∧
    resDistW.revenue_per_token = 1000 / (campDistW.tokens_sold : ℚ) ∧
    resDistW.total_distributed =
      (invsDistW.map (fun inv =>
        1000 / (campDistW.tokens_sold : ℚ) * (inv.tokens_purchased : ℚ))).sum := by
  have hok : distribute_revenue campDistW invsDistW 1000 = Except.ok resDistW := by
    have hne : invsDistW ≠ [] := by simp [invsDistW]
    unfold distribute_revenue
    rw [if_neg hne]
    norm_num [invsDistW, campDistW, resDistW]
  have h := C4_distribute_prorata campDistW invsDistW 1000 resDistW hok
  exact ⟨hok, h.1, h.2.2⟩

/-- C2: an investment that passes every precondition is always recorded —
the triggering Investment is appended to the campaign's list — and when
the post-increment `total_raised` reaches `funding_goal` (including any
overshoot) the status becomes `completed` within the same call; below the
goal the status is left as it was. -/
theorem C2_goal_completion (now : ℤ) (c : Campaign) (invs : List Investment)
    (addr : String) (amount : ℚ) (c' : Campaign) (invs' : List Investment)
    (inv : Investment)
    (h : invest_in_athlete now c invs addr amount = Except.ok (c', invs', inv)) :
    invs' = invs ++ [inv] ∧
    c'.total_raised = c.total_raised + amount ∧
    (c.funding_goal ≤ c'.total_raised → c'.status = TokenStatus.completed) ∧
    (c'.total_raised < c.funding_goal → c'.status = c.status) := by
  obtain ⟨hst, hend, hmin, http, hsup, hout⟩ := invest_ok_elim h
  simp only [Prod.mk.injEq] at hout
  obtain ⟨hc', hinvs', hinv⟩ := hout
  subst hc' hinvs' hinv
  refine ⟨rfl, applyInvestment_total_raised .., ?_, ?_⟩
  · intro hg
    rw [applyInvestment_total_raised] at hg
    rw [applyInvestment_status, if_pos hg]
  · intro hg
    rw [applyInvestment_total_raised] at hg
    rw [applyInvestment_status, if_neg (not_le.mpr hg)]

/-- The campaign created from `reqW` once activated: base price kept at 1,
goal 5000, supply 10000, 30-day window starting at instant 0. -/
def campWActive : Campaign :=
  { tokenomics := reqW.tokenomics
    athlete_valuation := 50
    adjusted_price_per_token := 1
    funding_goal := 5000
    campaign_end_date := 2592000
    status := TokenStatus.active
    total_raised := 0
    investors_count := 0
    tokens_sold := 0 }

/-- The investment record for 2500 units at price 1. -/
def invW2500 : Investment :=
  { investor_address := "X", amount_xlm := 2500, tokens_purchased := 2500 }

/-- `campWActive` after the 2500 investment: still short of the goal. -/
def campWAfter : Campaign :=
  { campWActive with
    total_raised := 2500
    tokens_sold := 2500
    investors_count := 1 }

lemma invest_campWActive_eq :
    invest_in_athlete 5 campWActive [] "X" 2500 =
      Except.ok (campWAfter, [invW2500], invW2500) := by
  have hfl : Int.floor ((2500 : ℚ) / campWActive.adjusted_price_per_token) = 2500 := by
    norm_num [campWActive]
  have http : tokensToPurchase campWActive 2500 = 2500 := by
    simp [tokensToPurchase, hfl]
  unfold invest_in_athlete
  rw [if_neg (show ¬(campWActive.status ≠ TokenStatus.active) by simp [campWActive])]
  rw [if_neg (by norm_num [campWActive])]
  rw [if_neg (by norm_num [campWActive, reqW])]
  rw [if_neg (by rw [http]; norm_num)]
  rw [if_neg (by rw [http]; norm_num [campWActive, reqW])]
  rw [http]
  simp only [Except.ok.injEq, Prod.mk.injEq]
  refine ⟨?_, rfl, rfl⟩
  simp only [applyInvestment]
  rw [if_neg (by norm_num [campWActive])]
  norm_num [campWActive, campWAfter]

/-- The investment record for 6000 units at price 1. -/
def invW6000 : Investment :=
  { investor_address := "Y", amount_xlm := 6000, tokens_purchased := 6000 }

/-- `campWActive` after a 6000 investment: the goal of 5000 is overshot
and the campaign is completed. -/
def campWDone : Campaign :=
  { campWActive with
    total_raised := 6000
    tokens_sold := 6000
    investors_count := 1
    status := TokenStatus.completed }

lemma invest_campWActive_overshoot_eq :
    invest_in_athlete 5 campWActive [] "Y" 6000 =
      Except.ok (campWDone, [invW6000], invW6000) := by
  have hfl : Int.floor ((6000 : ℚ) / campWActive.adjusted_price_per_token) = 6000 := by
    norm_num [campWActive]
  have http : tokensToPurchase campWActive 6000 = 6000 := by
    simp [tokensToPurchase, hfl]
  unfold invest_in_athlete
  rw [if_neg (show ¬(campWActive.status ≠ TokenStatus.active) by simp [campWActive])]
  rw [if_neg (by norm_num [campWActive])]
  rw [if_neg (by norm_num [campWActive, reqW])]
  rw [if_neg (by rw [http]; norm_num)]
  rw [if_neg (by rw [http]; norm_num [campWActive, reqW])]
  rw [http]
  simp only [Except.ok.injEq, Prod.mk.injEq]
  refine ⟨?_, rfl, rfl⟩
  simp only [applyInvestment]
  rw [if_pos (by norm_num [campWActive])]
  norm_num [campWActive, campWDone]

/-- C2 witness: the concrete overshooting investment of 6000 against a
5000 goal succeeds, is recorded, and completes the campaign. -/
theorem C2_goal_completion_witness :
    [invW6000] = [] ++ [invW6000] ∧
    campWDone.total_raised = campWActive.total_raised + 6000 ∧
    campWDone.status = TokenStatus.completed := by
  have h := C2_goal_completion 5 campWActive [] "Y" 6000 campWDone [invW6000]
    invW6000 invest_campWActive_overshoot_eq
  exact ⟨h.1, h.2.1, h.2.2.1 (by norm_num [campWActive, campWDone])⟩

/-- C3: the invest preconditions are checked in source order — campaign
exists, status is `active`, window not elapsed, amount at least the
minimum, at least one whole token purchasable, enough supply left — the
first failing check determines the error, and every failing path leaves
the stores (campaign counters and investment lists) unchanged. -/
theorem C3_precondition_order (now : ℤ) (s : SystemState)
    (tokenId addr : String) (amount : ℚ) :
    (s.tokens_db tokenId = none →
      invest_step now s tokenId addr amount = (s, Except.error ApiError.notFound)) ∧
    (∀ c, s.tokens_db tokenId = some c →
      c.status ≠ TokenStatus.active →
      invest_step now s tokenId addr amount = (s, Except.error ApiError.invalidState)) ∧
    (∀ c, s.tokens_db tokenId = some c →
      c.status = TokenStatus.active →
      c.campaign_end_date < now →
      invest_step now s tokenId addr amount = (s, Except.error ApiError.expired)) ∧
    (∀ c, s.tokens_db tokenId = some c →
      c.status = TokenStatus.active →
      now ≤ c.campaign_end_date →
      amount < c.tokenomics.minimum_investment →
      invest_step now s tokenId addr amount = (s, Except.error ApiError.belowMinimum)) ∧
    (∀ c, s.tokens_db tokenId = some c →
      c.status = TokenStatus.active →
      now ≤ c.campaign_end_date →
      c.tokenomics.minimum_investment ≤ amount →
      Int.floor (amount / c.adjusted_price_per_token) < 1 →
      invest_step now s tokenId addr amount = (s, Except.error ApiError.amountTooSmall)) ∧
    (∀ c, s.tokens_db tokenId = some c →
      c.status = TokenStatus.active →
      now ≤ c.campaign_end_date →
      c.tokenomics.minimum_investment ≤ amount →
      1 ≤ Int.floor (amount / c.adjusted_price_per_token) →
      (c.tokenomics.total_supply : ℤ) - (c.tokens_sold : ℤ) <
        Int.floor (amount / c.adjusted_price_per_token) →
      invest_step now s tokenId addr amount =
        (s, Except.error ApiError.insufficientSupply)) ∧
    (∀ e, (invest_step now s tokenId addr amount).2 = Except.error e →
      (invest_step now s tokenId addr amount).1 = s) := by
  refine ⟨?_, ?_, ?_, ?_, ?_, ?_, ?_⟩
  · intro h
    simp [invest_step, h]
  · intro c hc hst
    have hinv : invest_in_athlete now c (s.investments_db tokenId) addr amount =
        Except.error ApiError.invalidState := by
      unfold invest_in_athlete
      rw [if_pos hst]
    simp [invest_step, hc, hinv]
  · intro c hc hst hexp
    have hinv : invest_in_athlete now c (s.investments_db tokenId) addr amount =
        Except.error ApiError.expired := by
      unfold invest_in_athlete
      rw [if_neg (not_not_intro hst), if_pos hexp]
    simp [invest_step, hc, hinv]
  · intro c hc hst hnow hlt
    have hinv : invest_in_athlete now c (s.investments_db tokenId) addr amount =
        Except.error ApiError.belowMinimum := by
      unfold invest_in_athlete
      rw [if_neg (not_not_intro hst), if_neg (not_lt.mpr hnow), if_pos hlt]
    simp [invest_step, hc, hinv]
  · intro c hc hst hnow hmin hfl
    have httpz : tokensToPurchase c amount = 0 := by
      unfold tokensToPurchase
      omega
    have hinv : invest_in_athlete now c (s.investments_db tokenId) addr amount =
        Except.error ApiError.amountTooSmall := by
      unfold invest_in_athlete
      rw [if_neg (not_not_intro hst), if_neg (not_lt.mpr hnow),
        if_neg (not_lt.mpr hmin), if_pos httpz]
    simp [invest_step, hc, hinv]
  · intro c hc hst hnow hmin hfl hsup
    have hcast : (tokensToPurchase c amount : ℤ) =
        Int.floor (amount / c.adjusted_price_per_token) := by
      unfold tokensToPurchase
      omega
    have httpz : tokensToPurchase c amount ≠ 0 := by
      unfold tokensToPurchase
      omega
    have hinv : invest_in_athlete now c (s.investments_db tokenId) addr amount =
        Except.error ApiError.insufficientSupply := by
      unfold invest_in_athlete
      rw [if_neg (not_not_intro hst), if_neg (not_lt.mpr hnow),
        if_neg (not_lt.mpr hmin), if_neg httpz, if_pos (by rw [hcast]; exact hsup)]
    simp [invest_step, hc, hinv]
  · intro e he
    rcases hdb : s.tokens_db tokenId with _ | c
    · simp [invest_step, hdb]
    · rcases hres : invest_in_athlete now c (s.investments_db tokenId) addr amount
        with e' | out
      · simp [invest_step, hdb, hres]
      · obtain ⟨c', invs', inv⟩ := out
        simp [invest_step, hdb, hres] at he

/-- A store holding no campaign at all. -/
def sEmptyW : SystemState :=
  { tokens_db := fun _ => none, investments_db := fun _ => [] }

/-- A store holding exactly the campaign `c` under the id `"T"`, with no
recorded investments. -/
def mkState (c : Campaign) : SystemState :=
  { tokens_db := fun id => if id = "T" then some c else none
    investments_db := fun _ => [] }

/-- `campWActive` still in `draft`. -/
def campDraftW : Campaign := { campWActive with status := TokenStatus.draft }

/-- `campWActive` with a token price of 100, so 10 units buy no token. -/
def campSmallW : Campaign := { campWActive with adjusted_price_per_token := 100 }

/-- `campWActive` with its whole supply already sold. -/
def campFullW : Campaign := { campWActive with tokens_sold := 10000 }

/-- C3 witness: each precondition failure at a concrete store, and the
store left unchanged on a failing path. -/
theorem C3_precondition_order_witness :
    invest_step 5 sEmptyW "T" "X" 100 =
      (sEmptyW, Except.error ApiError.notFound) ∧
    invest_step 5 (mkState campDraftW) "T" "X" 100 =
      (mkState campDraftW, Except.error ApiError.invalidState) ∧
    invest_step 3000000 (mkState campWActive) "T" "X" 100 =
      (mkState campWActive, Except.error ApiError.expired) ∧
    invest_step 5 (mkState campWActive) "T" "X" 5 =
      (mkState campWActive, Except.error ApiError.belowMinimum) ∧
    invest_step 5 (mkState campSmallW) "T" "X" 10 =
      (mkState campSmallW, Except.error ApiError.amountTooSmall) ∧
    invest_step 5 (mkState campFullW) "T" "X" 50 =
      (mkState campFullW, Except.error ApiError.insufficientSupply) ∧
    (invest_step 5 sEmptyW "T" "X" 100).1 = sEmptyW :=
  ⟨(C3_precondition_order 5 sEmptyW "T" "X" 100).1 rfl,
   (C3_precondition_order 5 (mkState campDraftW) "T" "X" 100).2.1 campDraftW
     (by simp [mkState]) (by simp [campDraftW, campWActive]),
   (C3_precondition_order 3000000 (mkState campWActive) "T" "X" 100).2.2.1
     campWActive (by simp [mkState]) rfl (by norm_num [campWActive]),
   (C3_precondition_order 5 (mkState campWActive) "T" "X" 5).2.2.2.1
     campWActive (by simp [mkState]) rfl (by norm_num [campWActive])
     (by norm_num [campWActive, reqW]),
   (C3_precondition_order 5 (mkState campSmallW) "T" "X" 10).2.2.2.2.1
     campSmallW (by simp [mkState]) rfl
     (by norm_num [campSmallW, campWActive])
     (by norm_num [campSmallW, campWActive, reqW])
     (by norm_num [campSmallW, campWActive]),
   (C3_precondition_order 5 (mkState campFullW) "T" "X" 50).2.2.2.2.2.1
     campFullW (by simp [mkState]) rfl
     (by norm_num [campFullW, campWActive])
     (by norm_num [campFullW, campWActive, reqW])
     (by norm_num [campFullW, campWActive])
     (by norm_num [campFullW, campWActive, reqW]),
   (C3_precondition_order 5 sEmptyW "T" "X" 100).2.2.2.2.2.2 ApiError.notFound rfl⟩

/-- Position of a status along the `draft → active → completed`
lifecycle. -/
def statusRank : TokenStatus → ℕ
  | .draft => 0
  | .active => 1
  | .paused => 2
  | .completed => 3

/-- C8: status transitions are monotonic along
`draft → active → completed`: every engine step moves the status rank
upward, activation succeeds only from `draft`, investing succeeds only in
`active`, and no operation moves a `completed` campaign anywhere. -/
theorem C8_status_monotone :
    (∀ s s', Step s s' → statusRank s.1.status ≤ statusRank s'.1.status) ∧
    (∀ c c', activate_token c = Except.ok c' →
      c.status = TokenStatus.draft ∧ c'.status = TokenStatus.active) ∧
    (∀ (now : ℤ) (c : Campaign) (invs : List Investment) (addr : String)
      (amount : ℚ) out,
      invest_in_athlete now c invs addr amount = Except.ok out →
      c.status = TokenStatus.active) ∧
    (∀ s s', Step s s' → s.1.status = TokenStatus.completed → s' = s) := by
  refine ⟨?_, ?_, ?_, ?_⟩
  · intro s s' hs
    cases hs with
    | activate c c' invs hact =>
      obtain ⟨hd, hc'⟩ := activate_ok_elim hact
      subst hc'
      simp [hd, statusRank]
    | invest now c c' invs invs' addr amount inv hamt h =>
      obtain ⟨hst, -, -, -, -, hout⟩ := invest_ok_elim h
      simp only [Prod.mk.injEq] at hout
      obtain ⟨hc', -, -⟩ := hout
      subst hc'
      dsimp only
      rw [applyInvestment_status]
      split
      · simp [hst, statusRank]
      · simp [hst, statusRank]
    | distribute c invs revenue_amount res h =>
      exact le_refl _
  · intro c c' hact
    obtain ⟨hd, hc'⟩ := activate_ok_elim hact
    subst hc'
    exact ⟨hd, rfl⟩
  · intro now c invs addr amount out h
    exact (invest_ok_elim h).1
  · intro s s' hs hcomp
    cases hs with
    | activate c c' invs hact =>
      obtain ⟨hd, -⟩ := activate_ok_elim hact
      rw [show (c, invs).1 = c from rfl, hd] at hcomp
      exact absurd hcomp (by simp)
    | invest now c c' invs invs' addr amount inv hamt h =>
      have hst := (invest_ok_elim h).1
      rw [show (c, invs).1 = c from rfl, hst] at hcomp
      exact absurd hcomp (by simp)
    | distribute c invs revenue_amount res h =>
      rfl

/-- Activating the campaign freshly created from `reqW` yields
`campWActive`. -/
lemma activate_create_reqW :
    activate_token (create_athlete_token 0 reqW).1 = Except.ok campWActive := by
  unfold activate_token
  rw [if_neg (show ¬((create_athlete_token 0 reqW).1.status ≠ TokenStatus.draft)
    from not_not_intro rfl)]
  simp only [Except.ok.injEq]
  norm_num [create_athlete_token, campWActive, reqW, calculate_athlete_valuation,
    levelMultiplier, max_def, min_def]

/-- Distributing 1000 over the 60/40 example succeeds with the expected
breakdown. -/
lemma distribute_campDistW_eq :
    distribute_revenue campDistW invsDistW 1000 = Except.ok resDistW := by
  have hne : invsDistW ≠ [] := by simp [invsDistW]
  unfold distribute_revenue
  rw [if_neg hne]
  norm_num [invsDistW, campDistW, resDistW]

/-- C8 witness: a concrete rank-increasing invest step, a concrete
activation from `draft`, a concrete invest from `active`, and a concrete
step that leaves a `completed` campaign untouched. -/
theorem C8_status_monotone_witness :
    statusRank campWActive.status ≤ statusRank campWDone.status ∧
    ((create_athlete_token 0 reqW).1.status = TokenStatus.draft ∧
      campWActive.status = TokenStatus.active) ∧
    campWActive.status = TokenStatus.active ∧
    ((campDistW, invsDistW) : Campaign × List Investment) =
      (campDistW, invsDistW) :=
  ⟨(C8_status_monotone.1 (campWActive, []) (campWDone, [invW6000])
      (Step.invest 5 campWActive campWDone [] [invW6000] "Y" 6000 invW6000
        (by norm_num) invest_campWActive_overshoot_eq)),
   C8_status_monotone.2.1 (create_athlete_token 0 reqW).1 campWActive
     activate_create_reqW,
   C8_status_monotone.2.2.1 5 campWActive [] "Y" 6000
     (campWDone, [invW6000], invW6000) invest_campWActive_overshoot_eq,
   C8_status_monotone.2.2.2 (campDistW, invsDistW) (campDistW, invsDistW)
     (Step.distribute campDistW invsDistW 1000 resDistW distribute_campDistW_eq)
     rfl⟩

/-- C9: `distribute_revenue` never mutates the stores — after any
`/revenue/distribute` call, successful or not, the campaign record (its
`total_raised`, `tokens_sold`, `investors_count`, `status`) and the
investment lists are exactly what they were before the call. -/
theorem C9_distribute_no_mutation (s : SystemState) (tokenId : String)
    (revenue_amount : ℚ) :
    (distribute_step s tokenId revenue_amount).1 = s := by
  rcases hdb : s.tokens_db tokenId with _ | c
  · simp [distribute_step, hdb]
  · rcases hres : distribute_revenue c (s.investments_db tokenId) revenue_amount
      with e | res
    · simp [distribute_step, hdb, hres]
    · simp [distribute_step, hdb, hres]

/-- The state with one recorded 2500 investment is reachable:
create from `reqW`, activate, invest 2500. -/
lemma reachable_campWAfter : Reachable (campWAfter, [invW2500]) := by
  have h0 : Reachable (create_athlete_token 0 reqW) :=
    Reachable.create 0 reqW (by norm_num [ValidRequest, reqW])
  have h1 : Reachable (campWActive, ([] : List Investment)) :=
    Reachable.step _ _ h0
      (Step.activate (create_athlete_token 0 reqW).1 campWActive []
        activate_create_reqW)
  exact Reachable.step _ _ h1
    (Step.invest 5 campWActive campWAfter [] [invW2500] "X" 2500 invW2500
      (by norm_num) invest_campWActive_eq)

/-- C10: in every reachable state with a non-empty investment list,
`tokens_sold >= 1` — every accepted investment buys at least one token —
so the division `revenue_amount / tokens_sold` performed by
`distribute_revenue` is a division by a nonzero denominator. -/
theorem C10_tokens_sold_positive (s : Campaign × List Investment)
    (h : Reachable s) (hne : s.2 ≠ []) :
    1 ≤ s.1.tokens_sold ∧ ((s.1.tokens_sold : ℚ) ≠ 0) ∧
    ∀ revenue_amount : ℚ,
      (revenue_amount / (s.1.tokens_sold : ℚ)) * (s.1.tokens_sold : ℚ) =
        revenue_amount := by
  obtain ⟨-, -, h3, h4⟩ := reachable_inv h
  obtain ⟨c, invs⟩ := s
  dsimp only at h3 h4 hne ⊢
  cases invs with
  | nil => exact absurd rfl hne
  | cons i rest =>
    have hi : 1 ≤ i.tokens_purchased := h4 i (List.mem_cons_self i rest)
    have hsum : c.tokens_sold =
        i.tokens_purchased + (rest.map Investment.tokens_purchased).sum := by
      simpa using h3
    have hpos : 1 ≤ c.tokens_sold := by omega
    have hne0 : ((c.tokens_sold : ℚ)) ≠ 0 := Nat.cast_ne_zero.mpr (by omega)
    exact ⟨hpos, hne0, fun r => div_mul_cancel₀ r hne0⟩

/-- C10 witness: the concrete reachable state after the 2500 investment. -/
theorem C10_tokens_sold_positive_witness :
    1 ≤ campWAfter.tokens_sold ∧ ((campWAfter.tokens_sold : ℚ) ≠ 0) ∧
    ((7 : ℚ) / (campWAfter.tokens_sold : ℚ)) * (campWAfter.tokens_sold : ℚ) = 7 :=
  have h := C10_tokens_sold_positive (campWAfter, [invW2500])
    reachable_campWAfter (by simp)
  ⟨h.1, h.2.1, h.2.2 7⟩

end TrackTrade
